import Mathlib

/-! Verification of the CloudFace AI PWA client scripts: the service worker
(sw.js), the install/analytics script (pwa-install.js), and the dashboard
helpers excerpted in ROUTE_VERIFICATION_REPORT.md. -/

/-- Name of the runtime cache generation (sw.js line 6). -/
def CACHE_NAME : String := "cloudface-ai-v3"

/-- Name of the static cache generation (sw.js line 7). -/
def STATIC_CACHE : String := "cloudface-static-v3"

/-- The fixed shell manifest cached at install time (sw.js lines 10-22). -/
def STATIC_FILES : List String :=
  ["/", "/manifest.json", "/favicon.ico", "/apple-touch-icon.png",
   "/favicon-32x32.png", "/favicon-16x16.png", "/static/Cloudface-ai-logo.png",
   "/static/pwa-install.css", "/static/pwa-install.js", "/static/pwa-192.png",
   "/static/pwa-512.png"]

/-- The denylisted path prefixes of the fetch handler (sw.js lines 82-89). -/
def denyPrefixes : List String :=
  ["/api/", "/auth/", "/admin", "/photo/", "/search", "/process"]

/-- JavaScript's String.prototype.startsWith, on the character lists. -/
def jsStartsWith (s pre : String) : Bool :=
  pre.data.isPrefixOf s.data

/-- JavaScript's String.prototype.toLowerCase (ASCII fragment, which is all
the code compares). -/
def jsToLower (s : String) : String :=
  ⟨s.data.map Char.toLower⟩

/-- A pathname is denylisted when it starts with one of the prefixes. -/
def denylisted (p : String) : Bool :=
  denyPrefixes.any (fun pre => jsStartsWith p pre)

/-- The URL key of the root document, the fallback argument of
caches.match in the navigation branch (sw.js line 104). -/
def rootKey : String := "/"

/-- The static-asset path namespace tested at sw.js line 115. -/
def staticPrefix : String := "/static/"

/-- An intercepted request, with the fields the fetch handler reads:
method, the origin and pathname of its parsed URL, the full URL (the key
under which caches store it), its mode and its destination. -/
structure Request where
  method : String
  origin : String
  pathname : String
  url : String
  mode : String
  destination : String
deriving DecidableEq

/-- A response, with the fields the fetch handler reads: the HTTP status
and the response type (basic, cors, opaque, ...). -/
structure Response where
  status : Nat
  type : String
deriving DecidableEq

/-- One named cache: an association list from request URL to stored
response. -/
structure NamedCache where
  name : String
  entries : List (String × Response)
deriving DecidableEq

/-- The browser's CacheStorage: the list of named caches. -/
abbrev CacheStorage := List NamedCache

/-- Look a URL up in one cache's entries. -/
def cacheLookup (entries : List (String × Response)) (url : String) :
    Option Response :=
  match entries with
  | [] => none
  | e :: es => if e.1 = url then some e.2 else cacheLookup es url

/-- caches.match: search every cache, in order, for an entry stored under
the given URL. -/
def cachesMatch (storage : CacheStorage) (url : String) : Option Response :=
  match storage with
  | [] => none
  | c :: cs =>
    match cacheLookup c.entries url with
    | some r => some r
    | none => cachesMatch cs url

/-- What the fetch listener decides to do with a request (sw.js lines
68-134): return without respondWith, respond via the navigation
network-first branch, or respond via the static-asset cache-first
branch. -/
inductive FetchDecision
  | ignore
  | navigation
  | staticAsset
deriving DecidableEq

/-- The guard logic of the fetch listener: skip non-GET, skip cross-origin,
skip denylisted paths, then pick the navigation branch for mode navigate,
the static-asset branch for style/script/image/font destinations or
/static/ paths, and otherwise fall through without respondWith. -/
def classifyFetch (selfOrigin : String) (req : Request) : FetchDecision :=
  if req.method ≠ "GET" then .ignore
  else if req.origin ≠ selfOrigin then .ignore
  else if denylisted req.pathname then .ignore
  else if req.mode = "navigate" then .navigation
  else if req.destination = "style" ∨ req.destination = "script" ∨
          req.destination = "image" ∨ req.destination = "font" ∨
          jsStartsWith req.pathname staticPrefix then .staticAsset
  else .ignore

/-- One cache.put performed by the fetch handler: which cache, under which
URL, which response. -/
structure CacheWrite where
  cacheName : String
  url : String
  response : Response
deriving DecidableEq

/-- The outcome of a respondWith branch: the response the promise settles
with (none models a rejected promise or a fallback that found nothing) and
the cache writes performed. -/
structure HandlerResult where
  response : Option Response
  writes : List CacheWrite
deriving DecidableEq

/-- Network-first navigation branch (sw.js lines 94-107): on network
success, clone the response into the runtime cache unconditionally and
return it; on failure, fall back to a cached match for the exact request,
then to the cached root document. -/
def handleNavigation (storage : CacheStorage) (req : Request)
    (net : Option Response) : HandlerResult :=
  match net with
  | some resp => ⟨some resp, [⟨CACHE_NAME, req.url, resp⟩]⟩
  | none =>
    match cachesMatch storage req.url with
    | some cached => ⟨some cached, []⟩
    | none => ⟨cachesMatch storage rootKey, []⟩

/-- Cache-first static-asset branch (sw.js lines 109-133): serve a cached
response when present; otherwise fetch, and store the copy only when the
response has status 200 and type basic. -/
def handleStaticAsset (storage : CacheStorage) (req : Request)
    (net : Option Response) : HandlerResult :=
  match cachesMatch storage req.url with
  | some cached => ⟨some cached, []⟩
  | none =>
    match net with
    | some resp =>
      if resp.status = 200 ∧ resp.type = "basic" then
        ⟨some resp, [⟨CACHE_NAME, req.url, resp⟩]⟩
      else ⟨some resp, []⟩
    | none => ⟨none, []⟩

/-- The whole fetch listener: none when it returns without calling
respondWith, otherwise the branch result. net is the outcome of the
network fetch (none = network failure). -/
def handleFetch (selfOrigin : String) (storage : CacheStorage)
    (req : Request) (net : Option Response) : Option HandlerResult :=
  match classifyFetch selfOrigin req with
  | .ignore => none
  | .navigation => some (handleNavigation storage req net)
  | .staticAsset => some (handleStaticAsset storage req net)

/-! ### Install (sw.js lines 25-42) -/

/-- cache.addAll over the shell manifest: it succeeds when every fetch in
the manifest succeeds, and rejects as soon as any fetch fails. fetchOk
says which files are reachable. -/
def addAllStaticFiles (fetchOk : String → Bool) : Except Unit Unit :=
  if STATIC_FILES.all fetchOk then .ok () else .error ()

/-- The then-chain of the install handler before its catch: open the
static cache, addAll the manifest, then call skipWaiting. The Bool of a
fulfilled value records that skipWaiting was called. -/
def installChain (fetchOk : String → Bool) : Except Unit Bool :=
  match addAllStaticFiles fetchOk with
  | .ok _ => .ok true
  | .error e => .error e

/-- The trailing .catch of the install handler: it logs the error and
returns normally, so a rejected chain becomes a fulfilled promise on
which skipWaiting was never called. -/
def installCatch (r : Except Unit Bool) : Except Unit Bool :=
  match r with
  | .ok b => .ok b
  | .error _ => .ok false

/-- The promise passed to event.waitUntil by the install handler: the
chain followed by the catch. .ok b = the promise fulfills (b = skipWaiting
was called); .error = the promise rejects. -/
def installWaitUntil (fetchOk : String → Bool) : Except Unit Bool :=
  installCatch (installChain fetchOk)

/-! ### Activate (sw.js lines 45-65) -/

/-- The activate handler enumerates all cache names and deletes every one
that is neither STATIC_CACHE nor CACHE_NAME; this is the list of names
that survive. -/
def activateSurvivors (names : List String) : List String :=
  names.filter (fun n => n = STATIC_CACHE ∨ n = CACHE_NAME)

/-! ### Push notifications (sw.js lines 147-165) -/

/-- The payload fields the push handler reads from the parsed JSON. -/
structure PushData where
  title : String
  body : String
  primaryKey : String
deriving DecidableEq

/-- The notification the handler would show. -/
structure Notification where
  title : String
  body : String
  icon : String
  badge : String
deriving DecidableEq

/-- The push listener: when event.data is absent it does nothing; when
present it calls event.data.json() with no try/catch, so a parse failure
(the .error case of the json() call) propagates out of the listener;
on a parse success it shows one notification built from the payload. -/
def pushHandler (eventData : Option (Except Unit PushData)) :
    Except Unit (Option Notification) :=
  match eventData with
  | none => .ok none
  | some (.error e) => .error e
  | some (.ok d) =>
    .ok (some ⟨d.title, d.body, "/apple-touch-icon.png", "/favicon-32x32.png"⟩)

/-! ### Install banner (pwa-install.js lines 11-83) -/

/-- The state createBanner reads and writes: the persisted
pwa_install_dismissed flag (true when localStorage holds the string 1),
the session-local bannerShown flag, and how many banners have been
appended to the document this page load. -/
structure BannerState where
  dismissed : Bool
  bannerShown : Bool
  bannersCreated : Nat
deriving DecidableEq

/-- createBanner (pwa-install.js lines 14-63): a no-op when the dismissed
flag is persisted or a banner was already shown; otherwise it appends one
banner and sets bannerShown. -/
def createBanner (s : BannerState) : BannerState :=
  if s.dismissed ∨ s.bannerShown then s
  else { s with bannerShown := true, bannersCreated := s.bannersCreated + 1 }

/-- n trigger firings (beforeinstallprompt, iOS load, generic delay), each
of which calls createBanner at most once. -/
def fireTriggers : Nat → BannerState → BannerState
  | 0, s => s
  | n + 1, s => fireTriggers n (createBanner s)

/-! ### Standalone guard and service-worker registration
(pwa-install.js lines 3-9 and 85-95) -/

/-- The environment the top of pwa-install.js reads. -/
structure PageEnv where
  displayModeStandalone : Bool
  navigatorStandalone : Bool
  serviceWorkerSupported : Bool
  protocol : String
  hostname : String
deriving DecidableEq

/-- isStandalone (pwa-install.js lines 3-4). -/
def isStandalone (e : PageEnv) : Bool :=
  e.displayModeStandalone || e.navigatorStandalone

/-- isSecureContext (pwa-install.js lines 86-88). -/
def isSecureContext (e : PageEnv) : Bool :=
  (e.protocol == "https:") || (e.hostname == "localhost") ||
    (e.hostname == "127.0.0.1")

/-- What the module-level script run observably sets up. -/
structure ScriptEffects where
  returnedEarly : Bool
  swRegisterListenerAdded : Bool
deriving DecidableEq

/-- The IIFE of pwa-install.js: when isStandalone it returns at line 8,
before the service-worker registration block; otherwise it reaches that
block and adds the load listener that calls
navigator.serviceWorker.register exactly when the API exists and the
context is secure. -/
def installScriptRun (e : PageEnv) : ScriptEffects :=
  if isStandalone e then ⟨true, false⟩
  else ⟨false, e.serviceWorkerSupported && isSecureContext e⟩

/-! ### Trial status (ROUTE_VERIFICATION_REPORT.md, loadTrialStatus) -/

/-- The fields loadTrialStatus reads from the /api/trial-status JSON.
trial_start and expired record the truthiness of trial.trial_start and
trial.expired (trial defaults to the empty object, whose fields are
falsy); plan_type is String(plan.plan_type or empty). -/
structure TrialResponse where
  success : Bool
  upgrade_required : Bool
  plan_type : String
  trial_start : Bool
  expired : Bool
  days_left : Int
deriving DecidableEq

/-- What loadTrialStatus does to the page. -/
inductive TrialAction
  | noAction
  | hideBanner
  | upgradeBlock
  | showDays (d : Int)
deriving DecidableEq

/-- loadTrialStatus: bail out when the banner elements are missing, when
the fetch or JSON parse failed (resp = none), or when success is false;
hide the banner and return when trial.trial_start is falsy; when
upgrade_required is exactly true, or the plan is free and the trial
expired, show the trial-ended banner and open the upgrade modal;
otherwise show the days-left banner. -/
def loadTrialStatus (elementsPresent : Bool)
    (resp : Option TrialResponse) : TrialAction :=
  if ¬elementsPresent then .noAction
  else
    match resp with
    | none => .noAction
    | some d =>
      if ¬d.success then .noAction
      else
        let isFreePlan := jsToLower d.plan_type = "free"
        let shouldBlock := d.upgrade_required ∨ (isFreePlan ∧ d.expired)
        if ¬d.trial_start then .hideBanner
        else if shouldBlock then .upgradeBlock
        else .showDays d.days_left

/-- openUpgradeModal is called exactly on the upgradeBlock action. -/
def modalOpened (a : TrialAction) : Bool :=
  match a with
  | .upgradeBlock => true
  | _ => false

/-! ### Analytics pings (ROUTE_VERIFICATION_REPORT.md, sendAnalytics and
initAnalytics) -/

/-- How sendAnalytics transmits: beacon or a fire-and-forget POST. -/
inductive Transport
  | beacon
  | fetchPost
deriving DecidableEq

/-- sendAnalytics picks the beacon exactly when asked to and
navigator.sendBeacon exists; otherwise it falls back to fetch POST. -/
def sendTransport (useBeacon beaconAvail : Bool) : Transport :=
  if useBeacon ∧ beaconAvail then .beacon else .fetchPost

/-- Math.round(ms / 1000) for a non-negative millisecond count. -/
def roundSeconds (ms : Nat) : Nat := (ms + 500) / 1000

/-- The mutable state of initAnalytics: lastPingAt, in ms. -/
structure AnalyticsState where
  lastPingAt : Nat
deriving DecidableEq

/-- One emitted ping: its page_url and seconds payload fields and the
transport it was sent over. -/
structure PingEvent where
  page_url : String
  seconds : Nat
  transport : Transport
deriving DecidableEq

/-- One firing of the 30000 ms interval at time now: seconds is the
rounded elapsed time since lastPingAt, lastPingAt is reset to now, and
the ping goes over the default (fetch) transport. -/
def intervalTick (pageUrl : String) (beaconAvail : Bool)
    (s : AnalyticsState) (now : Nat) : AnalyticsState × PingEvent :=
  (⟨now⟩, ⟨pageUrl, roundSeconds (now - s.lastPingAt),
          sendTransport false beaconAvail⟩)

/-- The beforeunload listener at time now: one final ping with the rounded
elapsed time, sent with useBeacon = true. -/
def unloadPing (pageUrl : String) (beaconAvail : Bool)
    (s : AnalyticsState) (now : Nat) : PingEvent :=
  ⟨pageUrl, roundSeconds (now - s.lastPingAt), sendTransport true beaconAvail⟩

/-- Run the interval at each time in the list, threading lastPingAt. -/
def runTicks (pageUrl : String) (beaconAvail : Bool)
    (s : AnalyticsState) : List Nat → AnalyticsState × List PingEvent
  | [] => (s, [])
  | t :: ts =>
    let step := intervalTick pageUrl beaconAvail s t
    let rest := runTicks pageUrl beaconAvail step.1 ts
    (rest.1, step.2 :: rest.2)

/-- A page session: initAnalytics starts the clock at t0, the interval
fires at the given times, and the page unloads at time u. -/
def runSession (pageUrl : String) (beaconAvail : Bool) (t0 : Nat)
    (ticks : List Nat) (u : Nat) : List PingEvent :=
  let run := runTicks pageUrl beaconAvail ⟨t0⟩ ticks
  run.2 ++ [unloadPing pageUrl beaconAvail run.1 u]

/-- The interval's firing times while the page stays open: every 30000 ms
after t0. -/
def uniformTicks (t0 : Nat) : Nat → List Nat
  | 0 => []
  | n + 1 => (t0 + 30000) :: uniformTicks (t0 + 30000) n

/-! ### Concrete fixtures used by witnesses and counterexamples -/

/-- The worker's own origin in the concrete scenarios. -/
def siteOrigin : String := "https://cloudface-ai.com"

/-- A navigation request whose network response is a 404 page. -/
def navReq404 : Request :=
  ⟨"GET", siteOrigin, "/missing", "https://cloudface-ai.com/missing",
   "navigate", "document"⟩

/-- A same-origin 404 response. -/
def resp404 : Response := ⟨404, "basic"⟩

/-- A stylesheet request under /static/. -/
def staticCssReq : Request :=
  ⟨"GET", siteOrigin, "/static/pwa-install.css",
   "https://cloudface-ai.com/static/pwa-install.css", "no-cors", "style"⟩

/-- The cached root document of an installed shell. -/
def rootResp : Response := ⟨200, "basic"⟩

/-- A cache storage holding just the installed shell's root document. -/
def shellStorage : CacheStorage := [⟨STATIC_CACHE, [(rootKey, rootResp)]⟩]

/-- A navigation request to a page that was never cached. -/
def aboutReq : Request :=
  ⟨"GET", siteOrigin, "/about", "https://cloudface-ai.com/about",
   "navigate", "document"⟩

/-- A POST request, which the fetch handler must ignore. -/
def postReq : Request :=
  ⟨"POST", siteOrigin, "/process", "https://cloudface-ai.com/process",
   "cors", ""⟩

example : classifyFetch siteOrigin navReq404 = .navigation := by decide
example : classifyFetch siteOrigin staticCssReq = .staticAsset := by decide
example : classifyFetch siteOrigin postReq = .ignore := by decide
example : cachesMatch shellStorage rootKey = some rootResp := by decide
example :
    handleFetch siteOrigin [] navReq404 (some resp404) =
      some ⟨some resp404, [⟨CACHE_NAME, navReq404.url, resp404⟩]⟩ := by decide

/-! ### Helper lemmas -/

/-- A request the fetch listener did not ignore is a same-origin GET whose
path is not denylisted. -/
theorem classifyFetch_not_ignore (selfOrigin : String) (req : Request)
    (h : classifyFetch selfOrigin req ≠ .ignore) :
    req.method = "GET" ∧ req.origin = selfOrigin ∧
      denylisted req.pathname = false := by
  by_cases h1 : req.method = "GET"
  · by_cases h2 : req.origin = selfOrigin
    · by_cases h3 : denylisted req.pathname = false
      · exact ⟨h1, h2, h3⟩
      · exfalso
        apply h
        have h3t : denylisted req.pathname = true := by
          revert h3
          cases denylisted req.pathname <;> simp
        simp [classifyFetch, h1, h2, h3t]
    · exfalso
      apply h
      simp [classifyFetch, h1, h2]
  · exfalso
    apply h
    simp [classifyFetch, h1]

/-- Every write of the static-asset branch is a 200, type-basic
response. -/
theorem staticAsset_writes_ok (storage : CacheStorage) (req : Request)
    (net : Option Response) :
    ∀ w ∈ (handleStaticAsset storage req net).writes,
      w.response.status = 200 ∧ w.response.type = "basic" := by
  intro w hw
  unfold handleStaticAsset at hw
  cases hc : cachesMatch storage req.url with
  | some cached => rw [hc] at hw; simp at hw
  | none =>
    rw [hc] at hw
    cases net with
    | none => simp at hw
    | some resp =>
      dsimp only at hw
      by_cases hok : resp.status = 200 ∧ resp.type = "basic"
      · rw [if_pos hok] at hw
        simp only [List.mem_singleton] at hw
        subst hw
        exact hok
      · rw [if_neg hok] at hw
        simp at hw

/-! ### C1 -/

/-- C1 counterexample: the navigation network-first branch caches the
network response unconditionally, so a same-origin 404 navigation
response is written to the runtime cache, refuting the claim that no
non-200 response is ever stored. -/
theorem nav_branch_caches_non200 :
    handleFetch siteOrigin [] navReq404 (some resp404) =
      some ⟨some resp404, [⟨CACHE_NAME, navReq404.url, resp404⟩]⟩ ∧
    resp404.status ≠ 200 := by decide

/-- C1 (amended): every response stored by the static-asset cache-first
branch has status 200 and type basic, and any branch (navigation
included) only writes for same-origin GET requests; the navigation branch,
however, stores whatever the network returned, without the status or type
check. -/
theorem sw_cache_write_invariant (selfOrigin : String)
    (storage : CacheStorage) (req : Request) (net : Option Response)
    (hr : HandlerResult)
    (h : handleFetch selfOrigin storage req net = some hr) :
    (classifyFetch selfOrigin req = .staticAsset →
      ∀ w ∈ hr.writes, w.response.status = 200 ∧ w.response.type = "basic") ∧
    (hr.writes ≠ [] → req.method = "GET" ∧ req.origin = selfOrigin) := by
  have hni : classifyFetch selfOrigin req ≠ .ignore := by
    intro hi
    rw [handleFetch, hi] at h
    exact Option.noConfusion h
  obtain ⟨hm, ho, _⟩ := classifyFetch_not_ignore selfOrigin req hni
  refine ⟨?_, fun _ => ⟨hm, ho⟩⟩
  intro hsa w hw
  rw [handleFetch, hsa] at h
  have heq : handleStaticAsset storage req net = hr := Option.some.inj h
  subst heq
  exact staticAsset_writes_ok storage req net w hw

/-- C1 (amended) witness: the static-asset branch at a concrete 404
network response performs no write, and the request is a same-origin
GET. -/
theorem sw_cache_write_invariant_witness :
    (classifyFetch siteOrigin staticCssReq = .staticAsset →
      ∀ w ∈ (⟨some resp404, []⟩ : HandlerResult).writes,
        w.response.status = 200 ∧ w.response.type = "basic") ∧
    ((⟨some resp404, []⟩ : HandlerResult).writes ≠ [] →
      staticCssReq.method = "GET" ∧ staticCssReq.origin = siteOrigin) :=
  sw_cache_write_invariant siteOrigin [] staticCssReq (some resp404)
    ⟨some resp404, []⟩ (by decide)

/-! ### C2 -/

/-- C2 counterexample: when every manifest fetch fails, cache.addAll
rejects, yet the promise handed to waitUntil fulfills, because the
trailing catch swallows the error: the install step is not rejected. -/
theorem install_fetch_failure_fulfills :
    addAllStaticFiles (fun _ => false) = Except.error () ∧
    installWaitUntil (fun _ => false) = Except.ok false :=
  ⟨rfl, rfl⟩

/-- C2 (amended): if the fetch of any file in the shell manifest fails,
the error is caught and only logged: the promise passed to waitUntil
fulfills, so installation completes; skipWaiting is simply never
called. -/
theorem install_failure_caught (fetchOk : String → Bool)
    (h : ∃ f ∈ STATIC_FILES, fetchOk f = false) :
    installWaitUntil fetchOk = Except.ok false := by
  obtain ⟨f, hf, hv⟩ := h
  have hall : STATIC_FILES.all fetchOk = false := by
    rw [List.all_eq_false]
    exact ⟨f, hf, by simp [hv]⟩
  simp [installWaitUntil, installChain, addAllStaticFiles, installCatch, hall]

/-- C2 (amended) witness: with every fetch failing, the root document
itself is a failing manifest entry and the waitUntil promise fulfills
without skipWaiting. -/
theorem install_failure_caught_witness :
    (∃ f ∈ STATIC_FILES, (fun _ : String => false) f = false) ∧
    installWaitUntil (fun _ => false) = Except.ok false :=
  ⟨⟨rootKey, by decide, rfl⟩,
   install_failure_caught (fun _ => false) ⟨rootKey, by decide, rfl⟩⟩

/-! ### C3 -/

/-- C3: for every intercepted navigation request whose network fetch
fails, the produced response is the cached entry for the exact request
URL when one exists, and otherwise the cached root document; given a
cached shell it is a cached response, never an error page, and nothing is
written to any cache. -/
theorem nav_offline_fallback (selfOrigin : String) (storage : CacheStorage)
    (req : Request) (root : Response)
    (hm : req.method = "GET") (ho : req.origin = selfOrigin)
    (hd : denylisted req.pathname = false) (hmode : req.mode = "navigate")
    (hshell : cachesMatch storage rootKey = some root) :
    handleFetch selfOrigin storage req none =
      some ⟨some ((cachesMatch storage req.url).getD root), []⟩ := by
  have hcls : classifyFetch selfOrigin req = .navigation := by
    simp [classifyFetch, hm, ho, hd, hmode]
  rw [handleFetch, hcls]
  cases hc : cachesMatch storage req.url with
  | some cached => simp [handleNavigation, hc]
  | none => simp [handleNavigation, hc, hshell]

/-- C3 witness: with only the shell's root document cached, an offline
navigation to an uncached page yields exactly the cached root
document. -/
theorem nav_offline_fallback_witness :
    handleFetch siteOrigin shellStorage aboutReq none =
      some ⟨some ((cachesMatch shellStorage aboutReq.url).getD rootResp),
            []⟩ :=
  nav_offline_fallback siteOrigin shellStorage aboutReq rootResp
    (by decide) (by decide) (by decide) (by decide) (by decide)

/-! ### C4 -/

/-- C4: every request that is not a GET, or is cross-origin, or whose
path starts with a denylisted prefix, is returned without respondWith:
the fetch listener produces no response and no cache write, as if no
worker were installed. -/
theorem fetch_passthrough (selfOrigin : String) (storage : CacheStorage)
    (req : Request) (net : Option Response)
    (h : req.method ≠ "GET" ∨ req.origin ≠ selfOrigin ∨
      denylisted req.pathname = true) :
    handleFetch selfOrigin storage req net = none := by
  have hi : classifyFetch selfOrigin req = .ignore := by
    by_contra hc
    obtain ⟨hm, ho, hd⟩ := classifyFetch_not_ignore selfOrigin req hc
    rcases h with h | h | h
    · exact h hm
    · exact h ho
    · rw [hd] at h
      exact Bool.noConfusion h
  rw [handleFetch, hi]

/-- C4 witness: a POST to the denylisted /process endpoint passes
through untouched. -/
theorem fetch_passthrough_witness :
    handleFetch siteOrigin [] postReq none = none :=
  fetch_passthrough siteOrigin [] postReq none (Or.inl (by decide))

/-! ### C5 -/

/-- C5 counterexample: right after a fresh install only the static
generation exists; activation deletes nothing and the runtime generation
is absent afterwards, refuting that exactly one static and one runtime
generation remain. -/
theorem activate_fresh_install_no_runtime :
    activateSurvivors [STATIC_CACHE] = [STATIC_CACHE] ∧
    CACHE_NAME ∉ activateSurvivors [STATIC_CACHE] := by decide

/-- C5 (amended): a cache generation survives activation exactly when it
already existed and is the current static or the current runtime
generation; hence at most those two generations exist afterwards, each
present only if it existed before activation. -/
theorem activate_survivors_iff (names : List String) (n : String) :
    n ∈ activateSurvivors names ↔
      n ∈ names ∧ (n = STATIC_CACHE ∨ n = CACHE_NAME) := by
  simp [activateSurvivors, List.mem_filter]

/-! ### C6 -/

/-- C6 counterexample: a trial-status response with success true and
upgrade_required true but a falsy trial.trial_start makes loadTrialStatus
hide the banner and return before the shouldBlock check, so the upgrade
modal is not opened. -/
theorem trial_upgrade_without_start_no_modal :
    loadTrialStatus true (some ⟨true, true, "pro", false, false, 0⟩) =
      .hideBanner ∧
    modalOpened
      (loadTrialStatus true (some ⟨true, true, "pro", false, false, 0⟩)) =
      false := by decide

/-- C6 (amended): for every trial-status response with success true and
upgrade_required true, loadTrialStatus opens the upgrade modal provided
trial.trial_start is truthy (and the banner elements exist); the other
fields of the response are irrelevant. -/
theorem trial_upgrade_required_opens_modal (d : TrialResponse)
    (hs : d.success = true) (hu : d.upgrade_required = true)
    (ht : d.trial_start = true) :
    loadTrialStatus true (some d) = .upgradeBlock ∧
    modalOpened (loadTrialStatus true (some d)) = true := by
  have : loadTrialStatus true (some d) = .upgradeBlock := by
    simp [loadTrialStatus, hs, hu, ht]
  exact ⟨this, by rw [this]; rfl⟩

/-- C6 (amended) witness: a started free-plan trial with
upgrade_required true opens the modal. -/
theorem trial_upgrade_required_opens_modal_witness :
    loadTrialStatus true (some ⟨true, true, "free", true, false, 3⟩) =
      .upgradeBlock ∧
    modalOpened
      (loadTrialStatus true (some ⟨true, true, "free", true, false, 3⟩)) =
      true :=
  trial_upgrade_required_opens_modal ⟨true, true, "free", true, false, 3⟩
    rfl rfl rfl

/-! ### C7 -/

/-- C7 counterexample: on a push event whose payload is present but fails
to parse, the listener's call to event.data.json() is not wrapped in any
try/catch, so the handler ends in the error state: the exception escapes
the handler instead of being dropped silently. -/
theorem push_invalid_payload_throws :
    pushHandler (some (Except.error ())) = Except.error () := rfl

/-- C7 (amended): for every push event whose payload is present but is
not valid JSON, no notification is shown, but the parse exception
propagates out of the handler (it is not caught). -/
theorem push_parse_failure_escapes
    (eventData : Option (Except Unit PushData))
    (h : eventData = some (Except.error ())) :
    pushHandler eventData = Except.error () ∧
    ∀ n : Notification, pushHandler eventData ≠ Except.ok (some n) := by
  subst h
  exact ⟨rfl, fun n hn => Except.noConfusion hn⟩

/-- C7 (amended) witness: at the concrete unparsable payload, the handler
errors and shows nothing. -/
theorem push_parse_failure_escapes_witness :
    pushHandler (some (Except.error () : Except Unit PushData)) =
      Except.error () ∧
    ∀ n : Notification,
      pushHandler (some (Except.error () : Except Unit PushData)) ≠
        Except.ok (some n) :=
  push_parse_failure_escapes (some (Except.error ())) rfl

/-! ### C8 -/

/-- createBanner leaves a dismissed state entirely unchanged. -/
theorem fireTriggers_dismissed (n : Nat) (s : BannerState)
    (h : s.dismissed = true) : fireTriggers n s = s := by
  induction n with
  | zero => rfl
  | succ n ih =>
    have hc : createBanner s = s := by
      unfold createBanner
      rw [if_pos (Or.inl (by rw [h]))]
    rw [fireTriggers, hc, ih]

/-- Any run of triggers creates at most one banner beyond what was
already counted, and none once a banner is shown. -/
theorem fireTriggers_bound (n : Nat) (s : BannerState) :
    (fireTriggers n s).bannersCreated ≤
      s.bannersCreated + (if s.bannerShown then 0 else 1) := by
  induction n generalizing s with
  | zero =>
    cases hb : s.bannerShown <;> simp [fireTriggers]
  | succ n ih =>
    rw [fireTriggers]
    by_cases hstop : s.dismissed ∨ s.bannerShown
    · have hc : createBanner s = s := by
        unfold createBanner
        rw [if_pos (by simpa using hstop)]
      rw [hc]
      exact ih s
    · push_neg at hstop
      have hb : s.bannerShown = false := by
        simpa using hstop.2
      have hc : createBanner s =
          { s with bannerShown := true,
                   bannersCreated := s.bannersCreated + 1 } := by
        unfold createBanner
        rw [if_neg (by simpa using hstop)]
      rw [hc]
      have := ih { s with bannerShown := true,
                          bannersCreated := s.bannersCreated + 1 }
      simp only [if_pos rfl] at this
      simpa [hb] using this

/-- C8: from the initial page-load state, no matter how many of the three
triggers fire, at most one banner is ever created; and when the
pwa_install_dismissed flag is persisted, the whole run of triggers leaves
the state untouched (no banner is appended at all). -/
theorem banner_shown_at_most_once (n : Nat) (d : Bool) :
    (fireTriggers n ⟨d, false, 0⟩).bannersCreated ≤ 1 ∧
    fireTriggers n ⟨true, false, 0⟩ = ⟨true, false, 0⟩ := by
  constructor
  · have := fireTriggers_bound n ⟨d, false, 0⟩
    simpa using this
  · exact fireTriggers_dismissed n ⟨true, false, 0⟩ rfl

/-! ### C9 -/

/-- Running the interval at every-30000-ms times advances lastPingAt to
the last firing time and emits one 30-second fetch-transport ping per
firing. -/
theorem runTicks_uniform (pageUrl : String) (b : Bool) (t0 n : Nat) :
    runTicks pageUrl b ⟨t0⟩ (uniformTicks t0 n) =
      (⟨t0 + 30000 * n⟩,
       List.replicate n ⟨pageUrl, 30, sendTransport false b⟩) := by
  induction n generalizing t0 with
  | zero => simp [uniformTicks, runTicks]
  | succ n ih =>
    rw [uniformTicks, runTicks]
    simp only [intervalTick]
    rw [ih (t0 + 30000)]
    have h1 : t0 + 30000 - t0 = 30000 := by omega
    have h2 : t0 + 30000 + 30000 * n = t0 + 30000 * (n + 1) := by ring
    have h3 : roundSeconds 30000 = 30 := by norm_num [roundSeconds]
    simp [h1, h2, h3, List.replicate_succ]

/-- C9: in a session whose flush clock starts at t0, whose 30000 ms
interval fires n times, and which unloads at time u (with sendBeacon
available), the emitted pings are exactly: one fetch-transport ping of 30
seconds per interval firing, then one final beacon-transport ping whose
seconds field is the rounded elapsed time since the last flush. -/
theorem analytics_ping_schedule (pageUrl : String) (t0 n u : Nat) :
    runSession pageUrl true t0 (uniformTicks t0 n) u =
      List.replicate n ⟨pageUrl, 30, Transport.fetchPost⟩ ++
        [⟨pageUrl, roundSeconds (u - (t0 + 30000 * n)),
          Transport.beacon⟩] := by
  rw [runSession, runTicks_uniform]
  rfl

/-! ### C10 -/

/-- C10: when the page runs in standalone/installed mode, the install
script returns before the service-worker registration block, so the load
listener calling navigator.serviceWorker.register is never added. -/
theorem standalone_skips_sw_registration (e : PageEnv)
    (h : isStandalone e = true) :
    (installScriptRun e).returnedEarly = true ∧
    (installScriptRun e).swRegisterListenerAdded = false := by
  rw [installScriptRun, if_pos (by rw [h])]
  exact ⟨rfl, rfl⟩

/-- C10 witness: a standalone display-mode launch on a secure host with
service-worker support still registers nothing. -/
theorem standalone_skips_sw_registration_witness :
    (installScriptRun ⟨true, false, true, "https:", siteOrigin⟩).returnedEarly
      = true ∧
    (installScriptRun
        ⟨true, false, true, "https:", siteOrigin⟩).swRegisterListenerAdded
      = false :=
  standalone_skips_sw_registration ⟨true, false, true, "https:", siteOrigin⟩
    rfl
